import Mathlib

/-!
Shallow embedding of `tt_media_player.py`: the cache-key derivation
(`get_cache_key`), the disk cache (`cached_search` read/write branches),
the stream extraction policy (`extract_audio_url_async`), the fast/fallback
resolution pipeline (`youtube_search_first_fast`, `play_youtube`), the
`/volume` command branch, `clear_cache`, and the module top-level
evaluation.  External collaborators (the `yt_search.search` call, the
`yt_dlp` extractor, the player, the filesystem) are modelled as explicit
parameters/state; machine words are `Nat` with explicit `% 2^32`.
-/

namespace TT

/-- Python exceptions that the embedded fragments can raise. -/
inductive PyErr where
  | nameError (n : String)
  | keyError
  | valueError
  | indexError
  | searchError
  | extractError
  | ioError
  deriving Repr, DecidableEq

/-! ## Python string primitives used by the source -/

/-- `a.startswith(b)` on character lists. -/
def startsWithL : List Char → List Char → Bool
  | _, [] => true
  | [], _ :: _ => false
  | c :: cs, d :: ds => c == d && startsWithL cs ds

/-- Python `needle in hay` substring test, on character lists. -/
def containsSubL : List Char → List Char → Bool
  | [], needle => needle.isEmpty
  | c :: cs, needle => startsWithL (c :: cs) needle || containsSubL cs needle

/-- Python `needle in hay` substring test on strings. -/
def pyContains (hay needle : String) : Bool :=
  containsSubL hay.data needle.data

/-- Python `s.endswith(suffix)`. -/
def pyEndsWith (s suffix : String) : Bool :=
  suffix.data.isSuffixOf s.data

/-- Python `s.lower()` (ASCII case folding, which covers every input the
program builds keys from): lower-case each character. -/
def pyLower (s : String) : String := ⟨s.data.map Char.toLower⟩

/-- Worker for `pySplitWs`: walk the characters, accumulating the current
(reversed) token; whitespace ends a token, empty tokens are dropped. -/
def splitWsAux : List Char → List Char → List String
  | [], acc => if acc.isEmpty then [] else [⟨acc.reverse⟩]
  | c :: cs, acc =>
      if c.isWhitespace then
        if acc.isEmpty then splitWsAux cs []
        else (⟨acc.reverse⟩ : String) :: splitWsAux cs []
      else splitWsAux cs (c :: acc)

/-- Python `s.split()` — split on whitespace runs, dropping empty tokens. -/
def pySplitWs (s : String) : List String := splitWsAux s.data []

/-- Accumulate decimal digits; any non-digit character fails the parse. -/
def parseDigitsAux : List Char → Nat → Option Nat
  | [], acc => some acc
  | c :: cs, acc =>
      if c.isDigit then parseDigitsAux cs (10 * acc + (c.toNat - 48))
      else none

/-- Python `int(s)` returning `none` on `ValueError`: strip surrounding
whitespace, allow one optional sign, then require at least one digit. -/
def pyInt? (s : String) : Option Int :=
  match ((s.data.dropWhile Char.isWhitespace).reverse.dropWhile
      Char.isWhitespace).reverse with
  | [] => none
  | '-' :: ds =>
      if ds.isEmpty then none
      else (parseDigitsAux ds 0).map (fun n => -(n : Int))
  | '+' :: ds =>
      if ds.isEmpty then none
      else (parseDigitsAux ds 0).map (fun n => (n : Int))
  | ds => (parseDigitsAux ds 0).map (fun n => (n : Int))

/-- UTF-8 encoding of a string as a byte list, `s.encode()`. -/
def utf8Bytes (s : String) : List Nat :=
  (s.data.flatMap String.utf8EncodeChar).map (fun b => b.toNat)

/-! ## MD5 (RFC 1321), the digest behind `hashlib.md5(...).hexdigest()`

Words are `Nat` reduced mod `2^32` at every operation. -/

/-- The 64 MD5 sine-derived round constants `K[i] = ⌊2^32·|sin(i+1)|⌋`. -/
def md5K : List Nat :=
  [0xd76aa478, 0xe8c7b756, 0x242070db, 0xc1bdceee,
   0xf57c0faf, 0x4787c62a, 0xa8304613, 0xfd469501,
   0x698098d8, 0x8b44f7af, 0xffff5bb1, 0x895cd7be,
   0x6b901122, 0xfd987193, 0xa679438e, 0x49b40821,
   0xf61e2562, 0xc040b340, 0x265e5a51, 0xe9b6c7aa,
   0xd62f105d, 0x02441453, 0xd8a1e681, 0xe7d3fbc8,
   0x21e1cde6, 0xc33707d6, 0xf4d50d87, 0x455a14ed,
   0xa9e3e905, 0xfcefa3f8, 0x676f02d9, 0x8d2a4c8a,
   0xfffa3942, 0x8771f681, 0x6d9d6122, 0xfde5380c,
   0xa4beea44, 0x4bdecfa9, 0xf6bb4b60, 0xbebfbc70,
   0x289b7ec6, 0xeaa127fa, 0xd4ef3085, 0x04881d05,
   0xd9d4d039, 0xe6db99e5, 0x1fa27cf8, 0xc4ac5665,
   0xf4292244, 0x432aff97, 0xab9423a7, 0xfc93a039,
   0x655b59c3, 0x8f0ccc92, 0xffeff47d, 0x85845dd1,
   0x6fa87e4f, 0xfe2ce6e0, 0xa3014314, 0x4e0811a1,
   0xf7537e82, 0xbd3af235, 0x2ad7d2bb, 0xeb86d391]

/-- The per-round left-rotation amounts. -/
def md5S : List Nat :=
  [7, 12, 17, 22, 7, 12, 17, 22, 7, 12, 17, 22, 7, 12, 17, 22,
   5, 9, 14, 20, 5, 9, 14, 20, 5, 9, 14, 20, 5, 9, 14, 20,
   4, 11, 16, 23, 4, 11, 16, 23, 4, 11, 16, 23, 4, 11, 16, 23,
   6, 10, 15, 21, 6, 10, 15, 21, 6, 10, 15, 21, 6, 10, 15, 21]

/-- 32-bit left rotation. -/
def rotl32 (x c : Nat) : Nat :=
  ((x <<< c) ||| (x >>> (32 - c))) % 2 ^ 32

/-- 32-bit complement. -/
def not32 (x : Nat) : Nat := 0xffffffff ^^^ x

/-- Split a byte list into chunks of 64 bytes.  Padding guarantees the
length is a multiple of 64; `n` is fuel bounding the recursion. -/
def chunks64 : Nat → List Nat → List (List Nat)
  | _, [] => []
  | 0, _ => []
  | n + 1, bs => bs.take 64 :: chunks64 n (bs.drop 64)

/-- Assemble 4 consecutive little-endian bytes into each of 16 words. -/
def leWords : List Nat → List Nat
  | b0 :: b1 :: b2 :: b3 :: rest =>
      (b0 + b1 * 0x100 + b2 * 0x10000 + b3 * 0x1000000) :: leWords rest
  | _ => []

/-- MD5 padding: append `0x80`, zero bytes to 56 mod 64, then the
bit length as 8 little-endian bytes. -/
def md5Pad (msg : List Nat) : List Nat :=
  let len := msg.length
  let padLen := (55 + 64 - len % 64) % 64 + 1
  let bitLen := (len * 8) % 2 ^ 64
  msg ++ (0x80 :: List.replicate (padLen - 1) 0) ++
    ((List.range 8).map (fun i => bitLen / 2 ^ (8 * i) % 0x100))

/-- One MD5 round operation applied to the running state `(a,b,c,d)`,
using message words `m` and round index `i`. -/
def md5Op (m : List Nat) (st : Nat × Nat × Nat × Nat) (i : Nat) :
    Nat × Nat × Nat × Nat :=
  let (a, b, c, d) := st
  let (f, g) :=
    if i < 16 then ((b &&& c) ||| (not32 b &&& d), i)
    else if i < 32 then ((d &&& b) ||| (not32 d &&& c), (5 * i + 1) % 16)
    else if i < 48 then (b ^^^ c ^^^ d, (3 * i + 5) % 16)
    else (c ^^^ (b ||| not32 d), (7 * i) % 16)
  let f := (f + a + (md5K.getD i 0) + (m.getD g 0)) % 2 ^ 32
  (d, (b + rotl32 f (md5S.getD i 0)) % 2 ^ 32, b, c)

/-- Process one 64-byte chunk, updating the running digest state. -/
def md5Chunk (st : Nat × Nat × Nat × Nat) (chunk : List Nat) :
    Nat × Nat × Nat × Nat :=
  let m := leWords chunk
  let (a0, b0, c0, d0) := st
  let (a, b, c, d) := (List.range 64).foldl (md5Op m) (a0, b0, c0, d0)
  ((a0 + a) % 2 ^ 32, (b0 + b) % 2 ^ 32, (c0 + c) % 2 ^ 32, (d0 + d) % 2 ^ 32)

/-- Little-endian byte decomposition of a 32-bit word. -/
def wordLEBytes (w : Nat) : List Nat :=
  [w % 0x100, w / 0x100 % 0x100, w / 0x10000 % 0x100, w / 0x1000000 % 0x100]

/-- Lower-case hex digit for a nibble. -/
def hexDigit (n : Nat) : Char :=
  if n < 10 then Char.ofNat (48 + n) else Char.ofNat (87 + n)

/-- Two lower-case hex digits for a byte. -/
def byteHex (b : Nat) : List Char := [hexDigit (b / 16), hexDigit (b % 16)]

/-- The 16 digest bytes of MD5 over a byte list. -/
def md5Bytes (msg : List Nat) : List Nat :=
  let padded := md5Pad msg
  let st := (chunks64 (padded.length / 64 + 1) padded).foldl md5Chunk
    (0x67452301, 0xefcdab89, 0x98badcfe, 0x10325476)
  wordLEBytes st.1 ++ wordLEBytes st.2.1 ++ wordLEBytes st.2.2.1 ++
    wordLEBytes st.2.2.2

/-- `hashlib.md5(msg).hexdigest()`: 32 lower-case hex characters. -/
def md5Hex (msg : List Nat) : String :=
  ⟨(md5Bytes msg).flatMap byteHex⟩

/-- `get_cache_key(query)` — line 41: MD5 hexdigest of the lower-cased,
UTF-8–encoded query. -/
def get_cache_key (query : String) : String :=
  md5Hex (utf8Bytes (pyLower query))

/-! ## The disk cache (`CACHE_DIR`) — lines 19–20, 44–75, 169–174

The cache directory is modelled as an association list from file name to
file content; a pickle file either round-trips to the stored record or is
corrupt (raising on `pickle.load`). -/

/-- One search hit as stored by `yt_search.search`: the fields
`cached_search`'s callers read. -/
structure SearchResult where
  video_id : String
  title : String
  deriving Repr, DecidableEq

/-- What `pickle.dump` writes at line 65–70: `{'timestamp': …, 'results': …}`. -/
structure CacheData where
  timestamp : Int
  results : List SearchResult
  deriving Repr, DecidableEq

/-- Content of a cache file on disk: a well-formed pickle or a corrupt one
(on which `pickle.load` raises). -/
inductive FileContent where
  | valid (c : CacheData)
  | corrupt
  deriving Repr, DecidableEq

/-- The cache directory: file name ↦ content. -/
abbrev FS : Type := List (String × FileContent)

/-- Read a file from the cache directory (`none` = file does not exist). -/
def lookupFS : FS → String → Option FileContent
  | [], _ => none
  | (n, c) :: rest, name => if n == name then some c else lookupFS rest name

/-- Write (create or overwrite) a file, as `open(cache_file, 'wb')` does. -/
def writeFS : FS → String → FileContent → FS
  | [], name, c => [(name, c)]
  | (n, c0) :: rest, name, c =>
      if n == name then (n, c) :: rest else (n, c0) :: writeFS rest name c

/-- The cache file name for a key — line 47: `f"search_{cache_key}.pkl"`. -/
def cacheFileName (key : String) : String := "search_" ++ key ++ ".pkl"

/-- The read branch of `cached_search` — lines 50–57: if the file exists
and unpickles and `time.time() - cached['timestamp'] < 3600`, return the
stored results; a missing file, a corrupt entry (`except: pass`) or an
expired timestamp all fall through to `none`. -/
def cache_get (fs : FS) (now : Int) (file : String) : Option (List SearchResult) :=
  match lookupFS fs file with
  | some (.valid c) => if now - c.timestamp < 3600 then some c.results else none
  | some .corrupt => none
  | none => none

/-- The persist step of `cached_search` — lines 65–70: store
`{'timestamp': now, 'results': results}` under the cache file. -/
def cache_put (fs : FS) (file : String) (now : Int) (results : List SearchResult) :
    FS :=
  writeFS fs file (.valid ⟨now, results⟩)

/-- `clear_cache()` — lines 169–174: remove every file in `CACHE_DIR`
whose name ends in `.pkl`. -/
def clear_cache (fs : FS) : FS :=
  fs.filter (fun p => ¬ pyEndsWith p.1 ".pkl")

/-! ## Collaborator environment

All ambient effects `cached_search` and its callers touch: the cache
directory, the clock, the `yt_search.search` collaborator, whether the
persist step raises (e.g. disk full), the `yt_dlp` responses. -/

/-- The `yt_dlp` info dict as read by `extract_audio_url_async`:
`info.get('formats', [])` and `info['url']`. -/
structure Format where
  acodec : Option String
  url : Option String
  deriving Repr, DecidableEq

/-- Top-level extractor response: optional `formats` list and optional
top-level `url`. -/
structure Info where
  formats : Option (List Format)
  url : Option String
  deriving Repr, DecidableEq

/-- Ambient state and collaborator behaviour for one resolution. -/
structure Env where
  fs : FS
  now : Int
  /-- Outcome of `search(query, max_results)` (line 62): results, or raise. -/
  searchResp : Except PyErr (List SearchResult)
  /-- Whether the persist step (lines 69–70) raises. -/
  writeFails : Bool
  /-- Outcome of `ydl.extract_info` inside `extract_audio_url_async`. -/
  extractResp : String → Except PyErr Info
  /-- Outcome of `youtube_search_first_original` (lines 129–143): `(url, title)`,
  or raise — that function has no handler, so errors propagate. -/
  originalResp : Except PyErr (String × String)

/-! ## `cached_search` — lines 44–75 -/

/-- The cache-miss branch — lines 59–75: call `search`; on success persist
and return the results, but any raise inside the `try` (the search itself
OR the persist step) lands in `except: return None`. -/
def fresh_search (env : Env) (file : String) : Option (List SearchResult) × FS :=
  match env.searchResp with
  | .ok results =>
      if env.writeFails then (none, env.fs)
      else (some results, cache_put env.fs file env.now results)
  | .error _ => (none, env.fs)

/-- `cached_search(query)` — lines 44–75, returning the Python return value
(`None` or a result list) together with the cache directory afterwards. -/
def cached_search (env : Env) (query : String) : Option (List SearchResult) × FS :=
  let file := cacheFileName (get_cache_key query)
  match cache_get env.fs env.now file with
  | some r => (some r, env.fs)
  | none => fresh_search env file

/-! ## Extraction — lines 94–126 -/

/-- The body of the `try:` in `extract_audio_url_async` — lines 109–124:
filter to `acodec != 'none'`, return the first opus format's `url`, else
the first audio format's `url`, else `info['url']`; a missing dict key
raises `KeyError`. -/
def extract_body (info : Info) : Except PyErr String :=
  let formats := info.formats.getD []
  let audio_formats := formats.filter (fun f => decide (f.acodec ≠ some "none"))
  match audio_formats.find? (fun f => pyContains (f.acodec.getD "") "opus") with
  | some f => match f.url with
    | some u => .ok u
    | none => .error .keyError
  | none =>
      match audio_formats with
      | f :: _ => match f.url with
        | some u => .ok u
        | none => .error .keyError
      | [] => match info.url with
        | some u => .ok u
        | none => .error .keyError

/-- `extract_audio_url_async(video_id)` — lines 94–126: run the extractor;
ANY raise (extractor failure or a missing key) is absorbed by the bare
`except:` which returns the plain watch URL `https://youtu.be/<id>`.
Despite its name this function is fully synchronous. -/
def extract_audio_url_async (env : Env) (video_id : String) : String :=
  match env.extractResp video_id with
  | .ok info =>
      match extract_body info with
      | .ok u => u
      | .error _ => "https://youtu.be/" ++ video_id
  | .error _ => "https://youtu.be/" ++ video_id

/-! ## Resolution — lines 77–92, 129–159 -/

/-- `youtube_search_first_original(query)` — lines 129–143: one direct
`yt_dlp` search-and-extract call with no exception handler. -/
def youtube_search_first_original (env : Env) (_query : String) :
    Except PyErr (String × String) :=
  env.originalResp

/-- What one run of `youtube_search_first_fast` produced: its return value
(or propagated exception), the cache directory afterwards, and the trace
of jobs handed to `executor.submit` during the call. -/
structure FastResult where
  outcome : Except PyErr (String × String)
  fs : FS
  submitted : List String
  deriving Repr

/-- `youtube_search_first_fast(query)` — lines 77–92: run `cached_search`;
if it yields a non-empty result list, take the first hit, call
`extract_audio_url_async(video_id)` inline (no `executor.submit` appears
anywhere in the source, so the submission trace is always empty) and
return `(audio_url, title)`; on a `None`/empty result fall back to
`youtube_search_first_original`. -/
def youtube_search_first_fast (env : Env) (query : String) : FastResult :=
  let (search_results, fs') := cached_search env query
  match search_results with
  | some (r :: _) =>
      let audio_url := extract_audio_url_async env r.video_id
      { outcome := .ok (audio_url, r.title), fs := fs', submitted := [] }
  | _ =>
      { outcome := youtube_search_first_original env query, fs := fs',
        submitted := [] }

/-- `play_youtube(query, use_cache)` — lines 145–159: resolve by the fast
or the original path and hand `(url, title)` to
`player.command("loadfile", url, "replace")`; the value returned here is
exactly what reaches the player. -/
def play_youtube (env : Env) (query : String) (use_cache : Bool) :
    Except PyErr (String × String) :=
  if use_cache then (youtube_search_first_fast env query).outcome
  else youtube_search_first_original env query

/-! ## The `/volume` command branch — lines 220–227 -/

/-- `int(cmd.split()[1])` — `none` models the `IndexError`/`ValueError`
raised on a missing or non-integer argument. -/
def volume_arg (cmd : String) : Option Int :=
  match (pySplitWs cmd).get? 1 with
  | none => none
  | some tok => pyInt? tok

/-- The `/volume ` branch — lines 220–227: returns the player volume after
the branch and the list of messages printed.  An in-range integer sets the
volume; a raise from parsing prints the usage message; an out-of-range
integer falls through the `if` with no `else`, leaving the volume as it
was and printing nothing.  The branch never propagates an exception, so
the interactive loop always continues. -/
def volume_branch (cmd : String) (current_volume : Int) : Int × List String :=
  match volume_arg cmd with
  | none => (current_volume, ["❌ Use: /volume 0-100"])
  | some vol =>
      if 0 ≤ vol ∧ vol ≤ 100 then (vol, ["🔊 Volume set to " ++ toString vol ++ "%"])
      else (current_volume, [])

/-! ## Module top level — lines 1–38

Python executes the module statements in order; each statement evaluates
its free names left-to-right against the names bound so far, raising
`NameError` on the first unbound one. -/

/-- One top-level statement: the names its expressions read, in evaluation
order, and the names it binds on success. -/
structure Stmt where
  reads : List String
  binds : List String
  deriving Repr, DecidableEq

/-- The module's top-level statements, lines 1–38 and the trailing
definitions/main loop.  The `player = MPV(...)` call (lines 23–35) reads
`MPV` and then its keyword arguments in order; all are literals except
`cache=yes`, which reads the bare name `yes`. -/
def moduleStmts : List Stmt :=
  [⟨[], ["os"]⟩,                               -- import os
   ⟨[], ["hashlib"]⟩,                          -- import hashlib
   ⟨[], ["pickle"]⟩,                           -- import pickle
   ⟨[], ["threading"]⟩,                        -- import threading
   ⟨[], ["ThreadPoolExecutor"]⟩,               -- from concurrent.futures import …
   ⟨[], ["time"]⟩,                             -- import time
   ⟨["os", "__file__", "os", "os"], []⟩,       -- os.environ["PATH"] = …
   ⟨[], ["MPV"]⟩,                              -- from mpv import MPV
   ⟨[], ["yt_dlp"]⟩,                           -- import yt_dlp
   ⟨[], ["search"]⟩,                           -- from yt_search import search
   ⟨[], ["warnings"]⟩,                         -- import warnings
   ⟨["warnings"], []⟩,                         -- warnings.filterwarnings("ignore")
   ⟨[], ["CACHE_DIR"]⟩,                        -- CACHE_DIR = "./yt_cache"
   ⟨["os", "CACHE_DIR"], []⟩,                  -- os.makedirs(CACHE_DIR, …)
   ⟨["MPV", "yes"], ["player"]⟩,               -- player = MPV(…, cache=yes, …)
   ⟨["ThreadPoolExecutor"], ["executor"]⟩,     -- executor = ThreadPoolExecutor(3)
   ⟨[], ["get_cache_key"]⟩,
   ⟨[], ["cached_search"]⟩,
   ⟨[], ["youtube_search_first_fast"]⟩,
   ⟨[], ["extract_audio_url_async"]⟩,
   ⟨[], ["youtube_search_first_original"]⟩,
   ⟨[], ["play_youtube"]⟩,
   ⟨[], ["clear_cache"]⟩,
   ⟨[], ["show_help"]⟩,
   ⟨["__name__"], []⟩]                         -- if __name__ == "__main__": loop

/-- Run top-level statements in order over the set of bound names;
stop with `NameError` at the first unbound name read. -/
def runModule : List Stmt → List String → Except PyErr (List String)
  | [], env => .ok env
  | s :: rest, env =>
    match s.reads.find? (fun n => ¬ env.contains n) with
    | some n => .error (.nameError n)
    | none => runModule rest (env ++ s.binds)

/-- Evaluating the module: `__name__` and `__file__` are pre-bound by the
interpreter. -/
def module_init : Except PyErr (List String) :=
  runModule moduleStmts ["__name__", "__file__"]

/-! ## Spec-side extraction policy (for the refinement claims)

This second selection function follows the WORDS of the spec (§4.2
"Extraction policy" and the "Format selection" testable property), to be
compared against `extract_body`/`extract_audio_url_async` above. -/

/-- A stream format as the spec describes it: `{codec, url}`. -/
structure SpecFormat where
  codec : String
  url : String
  deriving Repr, DecidableEq

/-- View a spec-side format as an extractor-response entry. -/
def toFormat (f : SpecFormat) : Format := ⟨some f.codec, some f.url⟩

/-- Modelled from the spec: "filter to audio-capable formats
(`acodec != none`); prefer the first format whose codec identifier
contains opus; otherwise take the first audio-capable format; otherwise
fall back to the top-level info URL if the collaborator supplies one.
No format found → signal `ExtractionFailed`." -/
def specSelect (formats : List SpecFormat) (infoUrl : Option String) :
    Except PyErr String :=
  let audio := formats.filter (fun f => decide (f.codec ≠ "none"))
  match audio.find? (fun f => pyContains f.codec "opus") with
  | some f => .ok f.url
  | none =>
      match audio, infoUrl with
      | f :: _, _ => .ok f.url
      | [], some u => .ok u
      | [], none => .error .extractError

/-! ## Helper lemmas -/

theorem filter_toFormat (l : List SpecFormat) :
    (l.map toFormat).filter (fun f => decide (f.acodec ≠ some "none")) =
      (l.filter (fun f => decide (f.codec ≠ "none"))).map toFormat := by
  induction l with
  | nil => rfl
  | cons a t ih =>
      by_cases h : a.codec = "none" <;>
        (simp [toFormat, List.filter_cons, h]; simpa using ih)

theorem find?_toFormat (l : List SpecFormat) :
    (l.map toFormat).find? (fun f => pyContains (f.acodec.getD "") "opus") =
      (l.find? (fun f => pyContains f.codec "opus")).map toFormat := by
  induction l with
  | nil => rfl
  | cons a t ih =>
      cases h : pyContains a.codec "opus" <;>
        simp [toFormat, List.find?_cons, h, ih]

theorem lookupFS_cons_self (n : String) (c : FileContent) (rest : FS) :
    lookupFS ((n, c) :: rest) n = some c := by
  simp [lookupFS]

theorem lookupFS_writeFS_self (fs : FS) (name : String) (c : FileContent) :
    lookupFS (writeFS fs name c) name = some c := by
  induction fs with
  | nil => simp [writeFS, lookupFS]
  | cons p rest ih =>
      obtain ⟨n, c0⟩ := p
      by_cases h : n = name
      · subst h; simp [writeFS, lookupFS]
      · have hb : (n == name) = false := by
          simpa using h
        simp [writeFS, lookupFS, hb, ih]

theorem cacheFileName_endsWith_pkl (key : String) :
    pyEndsWith (cacheFileName key) ".pkl" = true := by
  unfold pyEndsWith cacheFileName
  rw [List.isSuffixOf_iff_suffix]
  rw [String.data_append]
  exact List.suffix_append _ _

theorem lookupFS_clear_cache (fs : FS) (name : String)
    (h : pyEndsWith name ".pkl" = true) :
    lookupFS (clear_cache fs) name = none := by
  induction fs with
  | nil => rfl
  | cons p rest ih =>
      obtain ⟨n, c⟩ := p
      by_cases hn : pyEndsWith n ".pkl" = true
      · simp [clear_cache, List.filter_cons, hn] at ih ⊢
        exact ih
      · have hne : (n == name) = false := by
          rcases h' : n == name with _ | _
          · rfl
          · exact absurd (by rw [eq_of_beq h']; exact h) hn
        simp [clear_cache, List.filter_cons, hn, lookupFS, hne] at ih ⊢
        exact ih

theorem length_flatMap_byteHex (l : List Nat) :
    (l.flatMap byteHex).length = 2 * l.length := by
  induction l with
  | nil => rfl
  | cons b t ih => simp [List.flatMap_cons, byteHex, ih]; omega

theorem md5Bytes_length (msg : List Nat) : (md5Bytes msg).length = 16 := by
  simp [md5Bytes, wordLEBytes]

/-- Whether the `if __name__ == "__main__":` interactive loop is reached
when the module is evaluated. -/
def reaches_main_loop : Bool := module_init.toBool

/-! ## Claim theorems -/

/-- Environment exhibiting the C1 counterexample: the extractor responds
with an empty `formats` list and no top-level `url`. -/
def c1Env : Env :=
  { fs := [], now := 0, searchResp := .error .searchError, writeFails := false,
    extractResp := fun _ => .ok ⟨some [], none⟩,
    originalResp := .error .searchError }

/-- Claim C1, counterexample: on a response with no formats and no
top-level URL, the spec's policy signals `ExtractionFailed`, but
`extract_audio_url_async` (whose return type is a plain `String` — it can
never signal anything) returns the watch-page URL
`https://youtu.be/<video_id>` instead: the bare `except:` at line 125
absorbs the `KeyError` from `info['url']`. -/
theorem c1_no_format_counterexample :
    specSelect [] none = Except.error PyErr.extractError ∧
      extract_audio_url_async c1Env "dQw4w9WgXcQ" =
        "https://youtu.be/dQw4w9WgXcQ" :=
  ⟨rfl, rfl⟩

/-- Claim C1 (amended): for every extraction-collaborator response carrying
formats `{codec, url}`, the code selects exactly as the spec's policy does
— first opus-codec format, else first audio-capable format, else the
top-level info URL — but in the no-format-no-URL case it returns the plain
watch URL `https://youtu.be/<video_id>` rather than signalling
`ExtractionFailed`. -/
theorem c1_extract_policy (env : Env) (vid : String)
    (fs : List SpecFormat) (fb : Option String)
    (h : env.extractResp vid = .ok ⟨some (fs.map toFormat), fb⟩) :
    extract_audio_url_async env vid =
      match specSelect fs fb with
      | .ok u => u
      | .error _ => "https://youtu.be/" ++ vid := by
  unfold extract_audio_url_async
  rw [h]
  unfold extract_body specSelect
  simp only [Option.getD_some]
  rw [filter_toFormat, find?_toFormat]
  cases hf : (fs.filter (fun f => decide (f.codec ≠ "none"))).find?
      (fun f => pyContains f.codec "opus") with
  | some f => simp [toFormat]
  | none =>
      cases hl : fs.filter (fun f => decide (f.codec ≠ "none")) with
      | nil => cases fb <;> simp [toFormat]
      | cons f t => simp [toFormat]

/-- Claim C1, witness: a concrete opus/aac format list, on which the code
and the spec policy agree on the opus URL. -/
theorem c1_extract_policy_witness :
    extract_audio_url_async
      { c1Env with extractResp := fun _ =>
          Except.ok (Info.mk (some ([⟨"mp4a.40.2", "B"⟩, ⟨"opus", "A"⟩].map toFormat)) none) }
      "vid0" =
      match specSelect [⟨"mp4a.40.2", "B"⟩, ⟨"opus", "A"⟩] none with
      | .ok u => u
      | .error _ => "https://youtu.be/" ++ "vid0" :=
  c1_extract_policy _ "vid0" [⟨"mp4a.40.2", "B"⟩, ⟨"opus", "A"⟩] none rfl

/-- Claim C8: identical lower-cased queries yield identical cache keys, and
the key is a fixed-length (32 hex characters) digest; `get_cache_key` is a
pure function of the query, hence stable across runs. -/
theorem c8_cache_key_deterministic :
    (∀ q1 q2 : String, pyLower q1 = pyLower q2 →
        get_cache_key q1 = get_cache_key q2) ∧
    (∀ q : String, (get_cache_key q).length = 32) := by
  constructor
  · intro q1 q2 h
    unfold get_cache_key
    rw [h]
  · intro q
    unfold get_cache_key md5Hex
    rw [String.length_mk, length_flatMap_byteHex, md5Bytes_length]

/-- Claim C8, witness: two spellings of the same query normalize alike and
hash alike; a key has 32 characters. -/
theorem c8_cache_key_witness :
    get_cache_key "MiX TaPe" = get_cache_key "mix tape" ∧
      (get_cache_key "beats").length = 32 :=
  ⟨c8_cache_key_deterministic.1 "MiX TaPe" "mix tape" (by rfl),
   c8_cache_key_deterministic.2 "beats"⟩

/-- Claim C9: after `clear_cache` (which removes every `.pkl` file, and
every cache entry lives in a `search_<key>.pkl` file), the cache-read
branch returns absent for every key whatsoever — in particular for every
previously stored one. -/
theorem c9_clear_then_get (fs : FS) (now : Int) (key : String) :
    cache_get (clear_cache fs) now (cacheFileName key) = none := by
  unfold cache_get
  rw [lookupFS_clear_cache _ _ (cacheFileName_endsWith_pkl key)]

/-- Claim C10: evaluating the module top level raises
`NameError: name 'yes' is not defined` at the `player = MPV(..., cache=yes,
...)` statement (lines 23–35), because `yes` is read as a bare name and no
statement ever binds it; evaluation aborts there, so the statements that
follow — the executor, every resolver definition, and the interactive
loop — never execute. -/
theorem c10_module_load_fails :
    module_init = .error (.nameError "yes") ∧ reaches_main_loop = false :=
  ⟨rfl, rfl⟩

/-- Claim C3, counterexample: an entry stored at time 0 read at time 3600
(`now - storedAt = TTL` exactly) is treated as ABSENT — the code's guard
at line 54 is strict (`< 3600`), while the claim says the entry is still
valid at equality. -/
theorem c3_ttl_boundary_counterexample :
    cache_get [(cacheFileName "k", .valid ⟨0, [⟨"vidA", "Title A"⟩]⟩)] 3600
        (cacheFileName "k") = none := by
  unfold cache_get
  rw [lookupFS_cons_self]
  norm_num

/-- Claim C3 (amended): the cache read returns the stored payload if an
entry exists for the key and `now - storedAt < TTL` (STRICTLY less — at
`now - storedAt = TTL` the entry is already treated as absent), and
returns absent once `TTL ≤ now - storedAt` even while the entry is still
physically present, and likewise when no entry exists. -/
theorem c3_cache_validity (fs : FS) (now : Int) (key : String) :
    (∀ c : CacheData, lookupFS fs (cacheFileName key) = some (.valid c) →
      (now - c.timestamp < 3600 →
          cache_get fs now (cacheFileName key) = some c.results) ∧
      (3600 ≤ now - c.timestamp →
          cache_get fs now (cacheFileName key) = none)) ∧
    (lookupFS fs (cacheFileName key) = none →
      cache_get fs now (cacheFileName key) = none) := by
  refine ⟨fun c hc => ⟨fun h => ?_, fun h => ?_⟩, fun h => ?_⟩
  · unfold cache_get
    rw [hc]
    show (if now - c.timestamp < 3600 then some c.results else none) = _
    rw [if_pos h]
  · unfold cache_get
    rw [hc]
    show (if now - c.timestamp < 3600 then some c.results else none) = _
    rw [if_neg (by omega)]
  · unfold cache_get
    rw [h]

/-- Store used by the C3 witness. -/
def c3FS : FS := [(cacheFileName "deadbeef", .valid ⟨10, [⟨"vidA", "Title A"⟩]⟩)]

/-- Claim C3, witness: a fresh entry is returned, a stale one and a missing
one are absent. -/
theorem c3_cache_validity_witness :
    cache_get c3FS 20 (cacheFileName "deadbeef") = some [⟨"vidA", "Title A"⟩] ∧
      cache_get c3FS 99999 (cacheFileName "deadbeef") = none ∧
      cache_get [] 0 (cacheFileName "deadbeef") = none :=
  ⟨((c3_cache_validity c3FS 20 "deadbeef").1 _ (lookupFS_cons_self _ _ _)).1
      (by norm_num),
   ((c3_cache_validity c3FS 99999 "deadbeef").1 _ (lookupFS_cons_self _ _ _)).2
      (by norm_num),
   (c3_cache_validity [] 0 "deadbeef").2 rfl⟩

/-- Claim C7: `put` followed by `get` under the same key within the
validity window returns exactly the stored payload, the `put` having
overwritten whatever entry previously lived under that key (the first
conjunct exhibits the overwritten file). -/
theorem c7_put_then_get (fs : FS) (file : String) (t t' : Int)
    (v : List SearchResult) (h : t' - t < 3600) :
    lookupFS (cache_put fs file t v) file = some (.valid ⟨t, v⟩) ∧
      cache_get (cache_put fs file t v) t' file = some v := by
  refine ⟨lookupFS_writeFS_self fs file _, ?_⟩
  unfold cache_get cache_put
  rw [lookupFS_writeFS_self]
  show (if t' - t < 3600 then some v else none) = some v
  rw [if_pos h]

/-- Claim C7, witness: overwrite a prior entry under the same key at `t = 5`
and read it back immediately (`t' = 5`). -/
theorem c7_put_then_get_witness :
    lookupFS (cache_put [(cacheFileName "k2", .valid ⟨0, []⟩)]
        (cacheFileName "k2") 5 [⟨"vidB", "Title B"⟩]) (cacheFileName "k2") =
      some (.valid ⟨5, [⟨"vidB", "Title B"⟩]⟩) ∧
    cache_get (cache_put [(cacheFileName "k2", .valid ⟨0, []⟩)]
        (cacheFileName "k2") 5 [⟨"vidB", "Title B"⟩]) 5 (cacheFileName "k2") =
      some [⟨"vidB", "Title B"⟩] :=
  c7_put_then_get _ _ 5 5 _ (by norm_num)

/-- Environment for the C4 counterexample: empty cache, successful live
search, failing persist step. -/
def c4EnvFail : Env :=
  { fs := [], now := 0, searchResp := .ok [⟨"vidC", "Title C"⟩],
    writeFails := true, extractResp := fun _ => .error .extractError,
    originalResp := .ok ("fallback_url", "Fallback Title") }

/-- Claim C4, counterexample: when the persist step raises, the freshly
fetched result IS discarded — `cached_search` returns `None` (so resolution
falls through to the direct resolver), whereas with a healthy persist the
very same environment returns the fetched results.  The write failure
lands in the same `except: return None` (line 73–75) as a search failure. -/
theorem c4_persist_failure_counterexample :
    (cached_search c4EnvFail "q").1 = none ∧
      (youtube_search_first_fast c4EnvFail "q").outcome =
        Except.ok ("fallback_url", "Fallback Title") ∧
      (cached_search { c4EnvFail with writeFails := false } "q").1 =
        some [⟨"vidC", "Title C"⟩] :=
  ⟨rfl, rfl, rfl⟩

/-- Claim C4 (amended): a read/deserialization failure (corrupt entry) is
absorbed and behaves exactly like a cache miss (the fresh-search branch
runs, nothing propagates); but a failure while persisting a freshly
fetched result is caught by the same bare `except` as the search itself,
so `cached_search` returns `None` — the fetched result is discarded and
resolution falls back to the direct resolver. -/
theorem c4_cache_failure_absorption (env : Env) (q : String) :
    (lookupFS env.fs (cacheFileName (get_cache_key q)) = some .corrupt →
      cached_search env q = fresh_search env (cacheFileName (get_cache_key q))) ∧
    (∀ r, env.searchResp = .ok r → env.writeFails = true →
      cache_get env.fs env.now (cacheFileName (get_cache_key q)) = none →
      (cached_search env q).1 = none) := by
  constructor
  · intro h
    have hm : cache_get env.fs env.now (cacheFileName (get_cache_key q)) = none := by
      unfold cache_get
      rw [h]
    simp only [cached_search]
    rw [hm]
  · intro r hs hw hm
    simp only [cached_search]
    rw [hm]
    show (fresh_search env (cacheFileName (get_cache_key q))).1 = none
    unfold fresh_search
    rw [hs, hw]
    rfl

/-- Environment for the C4 witness: a corrupt entry under the query's key. -/
def c4EnvCorrupt : Env :=
  { fs := [(cacheFileName (get_cache_key "q"), .corrupt)], now := 0,
    searchResp := .ok [⟨"vidC", "Title C"⟩], writeFails := false,
    extractResp := fun _ => .error .extractError,
    originalResp := .error .searchError }

/-- Claim C4, witness: the corrupt-entry read degrades to the fresh-search
path, and the failing-persist run returns `None`. -/
theorem c4_cache_failure_absorption_witness :
    cached_search c4EnvCorrupt "q" =
        fresh_search c4EnvCorrupt (cacheFileName (get_cache_key "q")) ∧
      (cached_search c4EnvFail "q").1 = none :=
  ⟨(c4_cache_failure_absorption c4EnvCorrupt "q").1 (lookupFS_cons_self _ _ _),
   (c4_cache_failure_absorption c4EnvFail "q").2 [⟨"vidC", "Title C"⟩] rfl rfl rfl⟩

/-- Claim C5: when the live search collaborator fails (the code absorbs the
raise into a `None` return rather than letting `SearchUnavailable`
propagate) and the cache holds nothing fresh, the fast path falls back to
`youtube_search_first_original`, and it is the direct resolver's
`(url, title)` that `play_youtube` hands to the player. -/
theorem c5_search_failure_fallback (env : Env) (q : String) (e : PyErr)
    (hs : env.searchResp = .error e)
    (hm : cache_get env.fs env.now (cacheFileName (get_cache_key q)) = none) :
    play_youtube env q true = youtube_search_first_original env q := by
  simp only [play_youtube, if_true, youtube_search_first_fast, cached_search, hm]
  unfold fresh_search
  rw [hs]

/-- Environment for the C5 witness: empty cache, raising search, healthy
direct resolver. -/
def c5Env : Env :=
  { fs := [], now := 0, searchResp := .error .searchError, writeFails := false,
    extractResp := fun _ => .error .extractError,
    originalResp := .ok ("direct_url", "Direct Title") }

/-- Claim C5, witness: with the search collaborator raising, the direct
resolver's concrete URL and title are what reach the player. -/
theorem c5_search_failure_fallback_witness :
    play_youtube c5Env "lofi beats" true =
      Except.ok ("direct_url", "Direct Title") :=
  (c5_search_failure_fallback c5Env "lofi beats" .searchError rfl rfl).trans rfl

/-- Claim C6, counterexample: `/volume 150` leaves the volume unchanged and
the loop continues, but NO message is printed — the out-of-range integer
falls through the range `if` (lines 223–225), which has no `else`, and the
`except` handler (lines 226–227) only fires on a parse failure.  The claim
requires an error message to be shown. -/
theorem c6_out_of_range_counterexample :
    volume_branch "/volume 150" 60 = (60, []) := by decide

/-- Claim C6 (amended): every integer argument outside 0..100 is rejected
silently — the player volume is unchanged and the interactive loop
continues (the branch returns normally), but no error message is shown;
the `❌ Use: /volume 0-100` message appears only when the argument fails
to parse as an integer. -/
theorem c6_volume_out_of_range (cmd : String) (cur n : Int)
    (hp : volume_arg cmd = some n) (hout : n < 0 ∨ 100 < n) :
    volume_branch cmd cur = (cur, []) := by
  unfold volume_branch
  rw [hp]
  show (if 0 ≤ n ∧ n ≤ 100
      then (n, ["🔊 Volume set to " ++ toString n ++ "%"])
      else (cur, ([] : List String))) = (cur, [])
  rw [if_neg (by omega)]

/-- Claim C6, witness: `/volume 101` at volume 60 — unchanged, no output. -/
theorem c6_volume_out_of_range_witness :
    volume_branch "/volume 101" 60 = (60, []) :=
  c6_volume_out_of_range "/volume 101" 60 101 (by decide) (Or.inr (by norm_num))

/-- Environment for C2: a fresh cache hit for "lofi beats" and an extractor
that answers with a single opus format. -/
def c2Env : Env :=
  { fs := [(cacheFileName (get_cache_key "lofi beats"),
      .valid ⟨100, [⟨"dQw4w9WgXcQ", "Lofi Beats Radio"⟩]⟩)],
    now := 200, searchResp := .error .searchError, writeFails := false,
    extractResp := fun _ =>
      Except.ok (Info.mk (some [⟨some "opus", some "https://cdn.example/a.opus"⟩]) none),
    originalResp := .error .searchError }

/-- Claim C2: on a fast-path cache hit the code does NOT submit the
extraction job to the worker pool — no call site of `executor.submit`
exists in the source, so the submission trace is empty and the returned
URL is already the fully resolved extraction result, computed
synchronously on the caller's thread before `youtube_search_first_fast`
returns (despite the `_async` name and the "background" comment at
line 87).  The `ThreadPoolExecutor(max_workers=3)` of line 38 is only ever
shut down, never used. -/
theorem c2_extraction_is_synchronous :
    youtube_search_first_fast c2Env "lofi beats" =
      { outcome := Except.ok ("https://cdn.example/a.opus", "Lofi Beats Radio"),
        fs := c2Env.fs, submitted := [] } := by
  have h : cache_get c2Env.fs c2Env.now (cacheFileName (get_cache_key "lofi beats")) =
      some [⟨"dQw4w9WgXcQ", "Lofi Beats Radio"⟩] := by
    show cache_get
        [(cacheFileName (get_cache_key "lofi beats"),
          FileContent.valid ⟨100, [⟨"dQw4w9WgXcQ", "Lofi Beats Radio"⟩]⟩)]
        200 (cacheFileName (get_cache_key "lofi beats")) = _
    unfold cache_get
    rw [lookupFS_cons_self]
    norm_num
  simp only [youtube_search_first_fast, cached_search, h]
  rfl

end TT
